import Mathlib

/-!
Verification development for the motion-labs preview engine.

The embedding below translates the engine's source into Lean:
snapshot-based undo/redo (`HistoryManager`), per-tick media
synchronization and the Web Audio routing with ducking
(`syncMediaElement`), the pointer-driven resize geometry
(`resizeUpdate`), the transition-in/out opacity and transform
calculator (`transitionResult`), and the visual render gate
(`renderVisualElement`).

Numeric values (seconds, percentages, volumes, frequencies) are
modelled as exact rationals; the source computes with IEEE doubles,
and every concrete input used below is exactly representable, so
the rational model agrees with the source on those inputs.
-/

namespace MotionLabs

/-- Element kinds, from the ElementType enum referenced by the preview
component (constructor names lowered to Lean style). -/
inductive ElementType
  | video
  | audio
  | image
  | text
  | shape
  | aiGenerated
deriving DecidableEq

/-- Transition effect tags, from the string tags matched in the
transition switches. -/
inductive TransitionType
  | none
  | fade
  | dissolve
  | zoomIn
  | zoomOut
  | wipeLeft
  | wipeRight
  | wipeUp
  | wipeDown
deriving DecidableEq

/-- A transition configuration: effect tag plus window length in seconds. -/
structure TransitionSpec where
  type : TransitionType
  duration : ℚ
deriving DecidableEq

/-- The per-element properties bag, restricted to the fields the engine
reads (audio parameters and the media source reference). Optional fields
are `Option` to model absent JS properties. -/
structure ElementProps where
  volume : Option ℚ
  isMuted : Option Bool
  playbackRate : Option ℚ
  highPassFrequency : Option ℚ
  lowPassFrequency : Option ℚ
  ducking : Option Bool
  duckingThreshold : Option ℚ
  src : Option String
deriving DecidableEq

/-- A timeline element, with the fields the preview engine reads. -/
structure EditorElement where
  id : String
  type : ElementType
  startTime : ℚ
  duration : ℚ
  mediaOffset : ℚ
  x : ℚ
  y : ℚ
  width : ℚ
  height : ℚ
  rotation : ℚ
  flipX : Bool
  flipY : Bool
  zIndex : Option Int
  transitionIn : Option TransitionSpec
  transitionOut : Option TransitionSpec
  props : ElementProps
deriving DecidableEq

/-- Modelled from the spec: a Track is an ordered lane holding element
references by id (the types module is not part of the sources given). -/
structure Track where
  id : String
  elementIds : List String
deriving DecidableEq

/-- Modelled from the spec: a Marker is a labeled timeline position
(the types module is not part of the sources given). -/
structure Marker where
  id : String
  time : ℚ
  label : String
deriving DecidableEq

/-- JS `a || d` for an optional numeric property: a missing value or the
(falsy) value 0 both give the default. Used for the EQ cutoff reads. -/
def jsOr (v : Option ℚ) (d : ℚ) : ℚ :=
  match v with
  | Option.some x => if x = 0 then d else x
  | Option.none => d

/-- The externally supplied media handle: the fields of the DOM media
element the engine reads or writes. -/
structure MediaHandle where
  currentTime : ℚ
  paused : Bool
  playbackRate : ℚ
  volume : ℚ
  muted : Bool
deriving DecidableEq

/-- One observable write the per-tick sync body performs on the media
handle or on the audio graph. A tick produces a list of these in
program order. -/
inductive SyncAction
  | seek (t : ℚ)
  | play
  | pause
  | setRate (r : ℚ)
  | attemptCreateSource
  | setHighPass (f : ℚ)
  | setLowPass (f : ℚ)
  | setGain (v : ℚ)
  | setNativeVolume (v : ℚ)
  | setNativeMuted (b : Bool)
deriving DecidableEq

/-- The parameter state of one element's filter chain (high-pass,
low-pass, gain). Fresh nodes carry the Web Audio defaults: 350 Hz for a
BiquadFilter's frequency and 1 for a GainNode's gain. -/
structure AudioNodes where
  hpFreq : ℚ
  lpFreq : ℚ
  gainValue : ℚ
deriving DecidableEq

/-- Per-handle audio routing state: whether the source wrapper exists in
the per-handle cache, and the processing nodes recorded per element id.
A failed construction records nothing in either. -/
structure RouteCache where
  hasSource : Bool
  nodes : Option AudioNodes
deriving DecidableEq

/-- The ducking-source predicate: another currently-active audio/video
element with its ducking flag set. Mirrors the callback passed to the
find over the element list. -/
def duckingQualifies (element : EditorElement) (t : ℚ) (e : EditorElement) : Bool :=
  e.id != element.id
    && (e.type == ElementType.video || e.type == ElementType.audio)
    && e.props.ducking.getD false
    && decide (e.startTime ≤ t)
    && decide (t ≤ e.startTime + e.duration)

/-- The first qualifying ducking source in input-list order, from the
`elements.find(...)` call. -/
def activeDuckingSource (elements : List EditorElement) (element : EditorElement)
    (t : ℚ) : Option EditorElement :=
  elements.find? (duckingQualifies element t)

/-- The multiplicative attenuation the ducking rule applies: the first
qualifying source's threshold (defaulting to 0.2), or 1 when no source
qualifies. -/
def duckFactor (elements : List EditorElement) (element : EditorElement) (t : ℚ) : ℚ :=
  match activeDuckingSource elements element t with
  | Option.some d => d.props.duckingThreshold.getD (1/5)
  | Option.none => 1

/-- The effective volume computed on the Web Audio path: volume
defaulting to 1, forced to 0 when muted, then attenuated by the first
active ducking source's threshold. -/
def effectiveVolumeGraph (elements : List EditorElement) (element : EditorElement)
    (t : ℚ) : ℚ :=
  let v0 := element.props.volume.getD 1
  let v1 := if element.props.isMuted.getD false then 0 else v0
  match activeDuckingSource elements element t with
  | Option.some d => v1 * d.props.duckingThreshold.getD (1/5)
  | Option.none => v1

/-- The effective volume computed on the fallback (no Web Audio) path:
volume defaulting to 1 attenuated by the ducking factor. Note the
fallback body never forces the value to 0 on mute; it sets the handle's
native muted flag separately. -/
def effectiveVolumeFallback (elements : List EditorElement) (element : EditorElement)
    (t : ℚ) : ℚ :=
  let v0 := element.props.volume.getD 1
  match activeDuckingSource elements element t with
  | Option.some d => v0 * d.props.duckingThreshold.getD (1/5)
  | Option.none => v0

/-- Follows the spec's words: effective volume is
`isMuted ? 0 : (volume ?? 1)` multiplied by the ducking factor when a
ducking source exists. Stated for comparison with the two source paths. -/
def specEffectiveVolume (elements : List EditorElement) (element : EditorElement)
    (t : ℚ) : ℚ :=
  (if element.props.isMuted.getD false then 0 else element.props.volume.getD 1)
    * duckFactor elements element t

/-- The time-sync block: seek the handle to the target local time when
the drift exceeds the 0.3 s hysteresis band. -/
def timeSyncStep (el : EditorElement) (t : ℚ) (h : MediaHandle) :
    MediaHandle × List SyncAction :=
  let targetTime := (t - el.startTime) + el.mediaOffset
  if |h.currentTime - targetTime| > 3/10 then
    ({ h with currentTime := targetTime }, [SyncAction.seek targetTime])
  else (h, [])

/-- The play/pause reconciliation block. -/
def playPauseStep (isPlaying : Bool) (h : MediaHandle) :
    MediaHandle × List SyncAction :=
  if isPlaying && h.paused then ({ h with paused := false }, [SyncAction.play])
  else if !isPlaying && !h.paused then ({ h with paused := true }, [SyncAction.pause])
  else (h, [])

/-- The per-tick node parameter update: write each EQ cutoff only when
it changed, then always write the effective volume to the gain. -/
def updateNodesStep (elements : List EditorElement) (el : EditorElement) (t : ℚ)
    (nodes : AudioNodes) : AudioNodes × List SyncAction :=
  let hpFreq := jsOr el.props.highPassFrequency 0
  let lpFreq := jsOr el.props.lowPassFrequency 20000
  let s1 : AudioNodes × List SyncAction :=
    if nodes.hpFreq ≠ hpFreq then
      ({ nodes with hpFreq := hpFreq }, [SyncAction.setHighPass hpFreq])
    else (nodes, [])
  let s2 : AudioNodes × List SyncAction :=
    if s1.1.lpFreq ≠ lpFreq then
      ({ s1.1 with lpFreq := lpFreq }, s1.2 ++ [SyncAction.setLowPass lpFreq])
    else s1
  let ev := effectiveVolumeGraph elements el t
  ({ s2.1 with gainValue := ev }, s2.2 ++ [SyncAction.setGain ev])

/-- The Web Audio branch: construct the route once if absent (recording
nothing when construction throws), then update whatever nodes exist.
`createSucceeds` abstracts whether `createMediaElementSource` throws for
this handle (a property of the handle, constant across ticks). -/
def audioGraphStep (elements : List EditorElement) (el : EditorElement) (t : ℚ)
    (createSucceeds : Bool) (cache : RouteCache) : RouteCache × List SyncAction :=
  let a1 : RouteCache × List SyncAction :=
    if cache.hasSource then (cache, [])
    else if createSucceeds then
      ({ hasSource := true,
         nodes := Option.some { hpFreq := 350, lpFreq := 350, gainValue := 1 } },
       [SyncAction.attemptCreateSource])
    else (cache, [SyncAction.attemptCreateSource])
  match a1.1.nodes with
  | Option.some nodes =>
    let un := updateNodesStep elements el t nodes
    ({ a1.1 with nodes := Option.some un.1 }, a1.2 ++ un.2)
  | Option.none => a1

/-- The fallback branch used when no audio context exists: write the
fallback effective volume and the muted flag to the handle directly. -/
def fallbackStep (elements : List EditorElement) (el : EditorElement) (t : ℚ)
    (h : MediaHandle) : MediaHandle × List SyncAction :=
  let ev := effectiveVolumeFallback elements el t
  let m := el.props.isMuted.getD false
  ({ h with volume := ev, muted := m },
   [SyncAction.setNativeVolume ev, SyncAction.setNativeMuted m])

/-- One tick of the sync body for one element/handle pair, in program
order: active-window test, time sync, play/pause, audio branch (graph
when a context exists, else direct fallback), playback rate; an
inactive element's playing handle is only paused. -/
def syncMediaElement (elements : List EditorElement) (el : EditorElement) (t : ℚ)
    (isPlaying ctxPresent createSucceeds : Bool) (cache : RouteCache)
    (h : MediaHandle) : RouteCache × MediaHandle × List SyncAction :=
  if el.startTime ≤ t ∧ t ≤ el.startTime + el.duration then
    let ts := timeSyncStep el t h
    let pp := playPauseStep isPlaying ts.1
    let au : RouteCache × MediaHandle × List SyncAction :=
      if ctxPresent then
        let ag := audioGraphStep elements el t createSucceeds cache
        (ag.1, pp.1, ag.2)
      else
        let fb := fallbackStep elements el t pp.1
        (cache, fb.1, fb.2)
    let rate := el.props.playbackRate.getD 1
    (au.1, { au.2.1 with playbackRate := rate },
     ts.2 ++ pp.2 ++ au.2.2 ++ [SyncAction.setRate rate])
  else if h.paused then (cache, h, [])
  else (cache, { h with paused := true }, [SyncAction.pause])

/-- Recognizes a seek write. -/
def isSeekAct : SyncAction → Bool
  | SyncAction.seek _ => true
  | _ => false

/-- Recognizes a route-construction attempt. -/
def isAttemptAct : SyncAction → Bool
  | SyncAction.attemptCreateSource => true
  | _ => false

/-- Recognizes a native-volume write. -/
def isNativeVolumeAct : SyncAction → Bool
  | SyncAction.setNativeVolume _ => true
  | _ => false

/-- The geometry snapshot captured at gesture start. -/
structure InitialElementState where
  x : ℚ
  y : ℚ
  w : ℚ
  h : ℚ
  r : ℚ
deriving DecidableEq

/-- The container's bounding rectangle in pixels. -/
structure Rect where
  width : ℚ
  height : ℚ
deriving DecidableEq

/-- The horizontal resize adjustment. `c` and `s` are the cosine and
sine of the element's start rotation in radians; the geometry tuple is
(newX, newY, newW, newH). -/
def applyXChange (c s : ℚ) (rect : Rect) (amount : ℚ) (isLeft : Bool)
    (g : ℚ × ℚ × ℚ × ℚ) : ℚ × ℚ × ℚ × ℚ :=
  if isLeft then
    let half := amount / 2
    let dx := -(half * rect.width / 100) * c
    let dy := -(half * rect.width / 100) * s
    (g.1 + dx / rect.width * 100, g.2.1 + dy / rect.height * 100,
     g.2.2.1 - amount, g.2.2.2)
  else
    let half := amount / 2
    let dx := half * rect.width / 100 * c
    let dy := half * rect.width / 100 * s
    (g.1 + dx / rect.width * 100, g.2.1 + dy / rect.height * 100,
     g.2.2.1 + amount, g.2.2.2)

/-- The vertical resize adjustment, symmetric to `applyXChange`. -/
def applyYChange (c s : ℚ) (rect : Rect) (amount : ℚ) (isTop : Bool)
    (g : ℚ × ℚ × ℚ × ℚ) : ℚ × ℚ × ℚ × ℚ :=
  if isTop then
    let half := amount / 2
    let dx := half * rect.height / 100 * s
    let dy := -(half * rect.height / 100) * c
    (g.1 + dx / rect.width * 100, g.2.1 + dy / rect.height * 100,
     g.2.2.1, g.2.2.2 - amount)
  else
    let half := amount / 2
    let dx := -(half * rect.height / 100) * s
    let dy := half * rect.height / 100 * c
    (g.1 + dx / rect.width * 100, g.2.1 + dy / rect.height * 100,
     g.2.2.1, g.2.2.2 + amount)

/-- The resize branch of the pointer-move handler: project the screen
delta onto the element's local axes (`c`, `s` are the cosine and sine
of the start rotation, exactly 1 and 0 for a 0-degree element), convert
to container percentages, apply each active compass edge in source
order (e, w, s, n), and clamp width and height to a minimum of 1.
Returns the (x, y, width, height) written back to the element. -/
def resizeUpdate (c s : ℚ) (rect : Rect) (st : InitialElementState)
    (handleHasE handleHasW handleHasS handleHasN : Bool)
    (deltaX deltaY : ℚ) : ℚ × ℚ × ℚ × ℚ :=
  let localDeltaX := deltaX * c + deltaY * s
  let localDeltaY := deltaY * c - deltaX * s
  let ldXPercent := localDeltaX / rect.width * 100
  let ldYPercent := localDeltaY / rect.height * 100
  let g0 := (st.x, st.y, st.w, st.h)
  let g1 := if handleHasE then applyXChange c s rect ldXPercent false g0 else g0
  let g2 := if handleHasW then applyXChange c s rect ldXPercent true g1 else g1
  let g3 := if handleHasS then applyYChange c s rect ldYPercent false g2 else g2
  let g4 := if handleHasN then applyYChange c s rect ldYPercent true g3 else g3
  (g4.1, g4.2.1, max 1 g4.2.2.1, max 1 g4.2.2.2)

/-- The 2-D transform a transition branch leaves on the element
(the transform string built by the switches, as data). -/
inductive TransitionTransform
  | none
  | scale (q : ℚ)
  | translateX (q : ℚ)
  | translateY (q : ℚ)
deriving DecidableEq

/-- The transition-in switch: given the accumulated
(opacity, transform), overwrite the opacity with the progress for
opacity-bearing types and set the transform for zoom/wipe types. -/
def applyTransitionIn (el : EditorElement) (t : ℚ)
    (acc : ℚ × TransitionTransform) : ℚ × TransitionTransform :=
  let elapsedTime := t - el.startTime
  match el.transitionIn with
  | Option.none => acc
  | Option.some ti =>
    if ti.type ≠ TransitionType.none ∧ elapsedTime < ti.duration then
      let progress := elapsedTime / ti.duration
      match ti.type with
      | TransitionType.none => acc
      | TransitionType.fade => (progress, acc.2)
      | TransitionType.dissolve => (progress, acc.2)
      | TransitionType.zoomIn =>
        (progress, TransitionTransform.scale (1/2 + 1/2 * progress))
      | TransitionType.zoomOut =>
        (progress, TransitionTransform.scale (3/2 - 1/2 * progress))
      | TransitionType.wipeLeft =>
        (acc.1, TransitionTransform.translateX ((1 - progress) * 100))
      | TransitionType.wipeRight =>
        (acc.1, TransitionTransform.translateX ((progress - 1) * 100))
      | TransitionType.wipeUp =>
        (acc.1, TransitionTransform.translateY ((1 - progress) * 100))
      | TransitionType.wipeDown =>
        (acc.1, TransitionTransform.translateY ((progress - 1) * 100))
    else acc

/-- The transition-out switch, run after the in switch on the same
accumulated pair: opacity becomes the minimum of the accumulated value
and the out progress for opacity-bearing types; zoom/wipe types
overwrite the transform. -/
def applyTransitionOut (el : EditorElement) (t : ℚ)
    (acc : ℚ × TransitionTransform) : ℚ × TransitionTransform :=
  let remainingTime := (el.startTime + el.duration) - t
  match el.transitionOut with
  | Option.none => acc
  | Option.some tr =>
    if tr.type ≠ TransitionType.none ∧ remainingTime < tr.duration then
      let progress := remainingTime / tr.duration
      match tr.type with
      | TransitionType.none => acc
      | TransitionType.fade => (min acc.1 progress, acc.2)
      | TransitionType.dissolve => (min acc.1 progress, acc.2)
      | TransitionType.zoomIn =>
        (min acc.1 progress, TransitionTransform.scale (3/2 - 1/2 * progress))
      | TransitionType.zoomOut =>
        (min acc.1 progress, TransitionTransform.scale (1/2 + 1/2 * progress))
      | TransitionType.wipeLeft =>
        (acc.1, TransitionTransform.translateX ((progress - 1) * 100))
      | TransitionType.wipeRight =>
        (acc.1, TransitionTransform.translateX ((1 - progress) * 100))
      | TransitionType.wipeUp =>
        (acc.1, TransitionTransform.translateY ((progress - 1) * 100))
      | TransitionType.wipeDown =>
        (acc.1, TransitionTransform.translateY ((1 - progress) * 100))
    else acc

/-- The (opacity, transform) pair the render function emits: opacity
starts at 1 and the transform empty, the in switch runs first and the
out switch second. -/
def transitionResult (el : EditorElement) (t : ℚ) : ℚ × TransitionTransform :=
  applyTransitionOut el t (applyTransitionIn el t (1, TransitionTransform.none))

/-- Whether a transition type writes the transform in the out switch
(zooms and wipes do; none/fade/dissolve leave it untouched). -/
def setsTransform : TransitionType → Bool
  | TransitionType.zoomIn => true
  | TransitionType.zoomOut => true
  | TransitionType.wipeLeft => true
  | TransitionType.wipeRight => true
  | TransitionType.wipeUp => true
  | TransitionType.wipeDown => true
  | _ => false

/-- The per-element render descriptor assembled for the widget layer. -/
structure RenderDescriptor where
  x : ℚ
  y : ℚ
  width : ℚ
  height : ℚ
  rotation : ℚ
  opacity : ℚ
  transform : TransitionTransform
  zIndex : Int
deriving DecidableEq

/-- The visual render function: emits nothing when the time lies outside
the element's window or when the element is an audio element; otherwise
assembles the descriptor with the transition opacity and transform. -/
def renderVisualElement (t : ℚ) (el : EditorElement) : Option RenderDescriptor :=
  if t < el.startTime ∨ t > el.startTime + el.duration then Option.none
  else if el.type = ElementType.audio then Option.none
  else
    let tp := transitionResult el t
    Option.some
      { x := el.x, y := el.y, width := el.width, height := el.height,
        rotation := el.rotation, opacity := tp.1, transform := tp.2,
        zIndex := 10 + el.zIndex.getD 0 }

/-- A history snapshot: the (elements, tracks, markers) triple. -/
structure HistoryState where
  elements : List EditorElement
  tracks : List Track
  markers : List Marker
deriving DecidableEq

/-- The history manager's state: two stacks (push/pop at the list end,
eviction from the front) plus the fingerprint of the last recorded
state. The source fingerprints by JSON serialization, which is
injective on this state space, so the fingerprint is modelled as the
state itself (`Option.none` standing for the initial empty string,
which no state serializes to); deep clones are identities on
immutable values. -/
structure HistoryManager where
  undoStack : List HistoryState
  redoStack : List HistoryState
  lastSavedState : Option HistoryState
deriving DecidableEq

/-- The history capacity bound. -/
def MAX_HISTORY_SIZE : Nat := 50

/-- `push`: no-op when the state fingerprints identically to the last
recorded one; otherwise append to the undo stack, clear the redo stack,
update the fingerprint, and evict the oldest entry past capacity. -/
def HistoryManager.push (m : HistoryManager) (state : HistoryState) : HistoryManager :=
  if m.lastSavedState = Option.some state then m
  else
    let u := m.undoStack ++ [state]
    { undoStack := if u.length > MAX_HISTORY_SIZE then u.drop 1 else u,
      redoStack := [],
      lastSavedState := Option.some state }

/-- `undo`: pop the most recent snapshot, push a clone of the current
state onto the redo stack, update the fingerprint, return the popped
snapshot (`Option.none` signalling the empty-stack no-op). -/
def HistoryManager.undo (m : HistoryManager) (currentState : HistoryState) :
    Option HistoryState × HistoryManager :=
  match m.undoStack.getLast? with
  | Option.none => (Option.none, m)
  | Option.some previousState =>
    (Option.some previousState,
     { undoStack := m.undoStack.dropLast,
       redoStack := m.redoStack ++ [currentState],
       lastSavedState := Option.some previousState })

/-- `redo`: symmetric to `undo`, popping from the redo stack and
pushing a clone of the current state onto the undo stack. -/
def HistoryManager.redo (m : HistoryManager) (currentState : HistoryState) :
    Option HistoryState × HistoryManager :=
  match m.redoStack.getLast? with
  | Option.none => (Option.none, m)
  | Option.some nextState =>
    (Option.some nextState,
     { undoStack := m.undoStack ++ [currentState],
       redoStack := m.redoStack.dropLast,
       lastSavedState := Option.some nextState })

/-! Concrete fixtures reused by witnesses and counterexamples. -/

/-- Properties bag with every optional field absent. -/
def baseProps : ElementProps :=
  { volume := Option.none, isMuted := Option.none, playbackRate := Option.none,
    highPassFrequency := Option.none, lowPassFrequency := Option.none,
    ducking := Option.none, duckingThreshold := Option.none, src := Option.none }

/-- A plain video element active on the window [0, 10]. -/
def baseElement : EditorElement :=
  { id := "e0", type := ElementType.video, startTime := 0, duration := 10,
    mediaOffset := 0, x := 0, y := 0, width := 100, height := 100, rotation := 0,
    flipX := false, flipY := false, zIndex := Option.none,
    transitionIn := Option.none, transitionOut := Option.none, props := baseProps }

/-- A route cache with nothing attached yet. -/
def freshCache : RouteCache := { hasSource := false, nodes := Option.none }

/-- A paused handle sitting at time 0. -/
def handleIdle : MediaHandle :=
  { currentTime := 0, paused := true, playbackRate := 1, volume := 1, muted := false }

/-- A playing handle sitting at time 0. -/
def handlePlaying : MediaHandle :=
  { currentTime := 0, paused := false, playbackRate := 1, volume := 1, muted := false }

/-- An audio element active on [0, 10]. -/
def audioElement : EditorElement := { baseElement with type := ElementType.audio }

/-- The empty history snapshot. -/
def sC8 : HistoryState := { elements := [], tracks := [], markers := [] }

/-- A distinct non-empty snapshot. -/
def sC9 : HistoryState := { elements := [baseElement], tracks := [], markers := [] }

/-! Claim theorems. -/

/-- C10: an audio element, active or not, and any element outside its
time window, yields no render descriptor. -/
theorem audioNeverRendered (t : ℚ) (el : EditorElement)
    (h : el.type = ElementType.audio ∨ t < el.startTime ∨ t > el.startTime + el.duration) :
    renderVisualElement t el = Option.none := by
  unfold renderVisualElement
  rcases h with h | h
  · split
    · rfl
    · simp [h]
  · rw [if_pos h]

/-- C10 witness: a concrete audio element inside its active window still
renders nothing. -/
theorem audioNeverRendered_witness :
    renderVisualElement 1 audioElement = Option.none ∧
    ¬((1 : ℚ) < audioElement.startTime ∨
      (1 : ℚ) > audioElement.startTime + audioElement.duration) :=
  ⟨audioNeverRendered 1 audioElement (Or.inl rfl),
   by norm_num [audioElement, baseElement]⟩

/-- C9: with a non-empty undo stack, undoing from the current state and
then redoing from the result returns the current state. -/
theorem undoRedoRoundTrip (m : HistoryManager) (current : HistoryState)
    (h : m.undoStack ≠ []) :
    ((m.undo current).2.redo (((m.undo current).1).getD current)).1
      = Option.some current := by
  unfold HistoryManager.undo
  obtain ⟨prev, hprev⟩ := Option.isSome_iff_exists.mp (List.getLast?_isSome.mpr h)
  rw [hprev]
  unfold HistoryManager.redo
  simp [List.getLast?_concat]

/-- A one-entry history manager. -/
def mC9 : HistoryManager :=
  { undoStack := [sC8], redoStack := [], lastSavedState := Option.some sC8 }

/-- The empty history manager. -/
def emptyManager : HistoryManager :=
  { undoStack := [], redoStack := [], lastSavedState := Option.none }

/-- C9 witness: the round trip at a concrete one-entry history. -/
theorem undoRedoRoundTrip_witness :
    ((mC9.undo sC9).2.redo (((mC9.undo sC9).1).getD sC9)).1 = Option.some sC9 :=
  undoRedoRoundTrip mC9 sC9 (by simp [mC9])

/-- C8 (amended): pushing a state that differs from the current
fingerprint, on an undo stack below capacity, deepens the undo stack by
exactly one, and the immediate second push of the same state is a
no-op. -/
theorem pushDedup (m : HistoryManager) (s : HistoryState)
    (hfp : m.lastSavedState ≠ Option.some s)
    (hcap : m.undoStack.length < MAX_HISTORY_SIZE) :
    ((m.push s).push s) = m.push s ∧
    (m.push s).undoStack.length = m.undoStack.length + 1 := by
  have hlen : ¬ MAX_HISTORY_SIZE < m.undoStack.length + 1 := by omega
  have hpush : m.push s =
      { undoStack := m.undoStack ++ [s], redoStack := [],
        lastSavedState := Option.some s } := by
    simp [HistoryManager.push, hfp, hlen]
  constructor
  · rw [hpush]
    simp [HistoryManager.push]
  · rw [hpush]
    simp

/-- C8 counterexample: from the reachable manager obtained by pushing
the empty snapshot once, pushing that same snapshot twice more leaves
the undo stack depth at 1, not one deeper than before. -/
theorem pushDedup_cex :
    ((((emptyManager.push sC8).push sC8).push sC8).undoStack.length
        = (emptyManager.push sC8).undoStack.length) ∧
    (emptyManager.push sC8).undoStack.length = 1 := by
  constructor <;> rfl

/-- C8 witness: a fresh push of a new state below capacity deepens the
stack by one and the repeated push is dropped. -/
theorem pushDedup_witness :
    ((emptyManager.push sC8).push sC8) = emptyManager.push sC8 ∧
    (emptyManager.push sC8).undoStack.length = emptyManager.undoStack.length + 1 :=
  pushDedup emptyManager sC8 (by simp [emptyManager])
    (by norm_num [emptyManager, MAX_HISTORY_SIZE])

/-- The first qualifying ducking source is found whenever the input list
splits into a prefix with no qualifying element, the source, and any
tail. -/
theorem activeDuckingSource_eq_first (l1 l2 : List EditorElement)
    (d element : EditorElement) (t : ℚ)
    (h1 : ∀ e ∈ l1, duckingQualifies element t e = false)
    (hd : duckingQualifies element t d = true) :
    activeDuckingSource (l1 ++ d :: l2) element t = Option.some d := by
  unfold activeDuckingSource
  rw [List.find?_append]
  have hnone : l1.find? (duckingQualifies element t) = Option.none :=
    List.find?_eq_none.mpr (by intro x hx; simp [h1 x hx])
  rw [hnone, List.find?_cons_of_pos _ hd]
  rfl

/-- C4: when the element list splits into a prefix with no qualifying
ducking source, a qualifying source `d`, and an arbitrary tail, the
victim's effective volume is its own base volume multiplied by exactly
`d`'s threshold (default 0.2) — the thresholds of later qualifying
sources in the tail never contribute. -/
theorem duckingExclusivity (l1 l2 : List EditorElement)
    (d element : EditorElement) (t : ℚ)
    (h1 : ∀ e ∈ l1, duckingQualifies element t e = false)
    (hd : duckingQualifies element t d = true) :
    effectiveVolumeGraph (l1 ++ d :: l2) element t =
      (if element.props.isMuted.getD false then 0 else element.props.volume.getD 1)
        * d.props.duckingThreshold.getD (1/5) := by
  unfold effectiveVolumeGraph
  rw [activeDuckingSource_eq_first l1 l2 d element t h1 hd]

/-- A ducking source with threshold 0.2, first in input order. -/
def duckerA : EditorElement :=
  { baseElement with
    id := "d1",
    props := { baseProps with
               ducking := Option.some true,
               duckingThreshold := Option.some (1/5) } }

/-- A second ducking source with threshold 0.5. -/
def duckerB : EditorElement :=
  { baseElement with
    id := "d2",
    props := { baseProps with
               ducking := Option.some true,
               duckingThreshold := Option.some (1/2) } }

/-- C4 witness: with two simultaneous duckers (thresholds 0.2 and 0.5),
the victim's volume uses exactly the first threshold: 1 x 0.2, not
1 x 0.2 x 0.5. -/
theorem duckingExclusivity_witness :
    effectiveVolumeGraph ([] ++ duckerA :: [duckerB]) baseElement 0 =
      (if baseElement.props.isMuted.getD false then 0
       else baseElement.props.volume.getD 1)
        * duckerA.props.duckingThreshold.getD (1/5) ∧
    (if baseElement.props.isMuted.getD false then 0
       else baseElement.props.volume.getD 1)
        * duckerA.props.duckingThreshold.getD (1/5) = 1/5 :=
  ⟨duckingExclusivity [] [duckerB] duckerA baseElement 0 (by simp)
      (by norm_num [duckingQualifies, duckerA, baseElement, baseProps]; decide),
   by norm_num [duckerA, baseElement, baseProps]⟩

/-- A muted element with explicit volume 1. -/
def mutedElement : EditorElement :=
  { baseElement with
    id := "m1",
    props := { baseProps with
               isMuted := Option.some true,
               volume := Option.some 1 } }

/-- C2 (amended): the Web Audio path always computes the spec's
effective volume; the fallback path computes the same value whenever
the element is not muted. When the element is muted the graph path
writes 0 while the fallback path computes the unmuted volume times the
ducking factor (relying on the native muted flag instead). -/
theorem fallbackParity (elements : List EditorElement) (element : EditorElement) (t : ℚ) :
    effectiveVolumeGraph elements element t = specEffectiveVolume elements element t ∧
    (element.props.isMuted.getD false = false →
      effectiveVolumeFallback elements element t = specEffectiveVolume elements element t) ∧
    (element.props.isMuted.getD false = true →
      effectiveVolumeGraph elements element t = 0 ∧
      effectiveVolumeFallback elements element t
        = element.props.volume.getD 1 * duckFactor elements element t) := by
  unfold effectiveVolumeGraph effectiveVolumeFallback specEffectiveVolume duckFactor
  cases hfind : activeDuckingSource elements element t <;>
    cases hm : element.props.isMuted.getD false <;>
      simp [hfind, hm]

/-- C2 witness: for an unmuted element both paths agree with the spec
value. -/
theorem fallbackParity_witness :
    effectiveVolumeFallback [] baseElement 0 = specEffectiveVolume [] baseElement 0 :=
  (fallbackParity [] baseElement 0).2.1 rfl

/-- C2 counterexample: a muted element with volume 1 gets gain 0 on the
Web Audio path but keeps native volume 1 on the fallback path; the two
per-tick traces record the differing writes. -/
theorem fallbackParity_cex :
    effectiveVolumeGraph [mutedElement] mutedElement 0 = 0 ∧
    effectiveVolumeFallback [mutedElement] mutedElement 0 = 1 ∧
    effectiveVolumeFallback [mutedElement] mutedElement 0
      ≠ specEffectiveVolume [mutedElement] mutedElement 0 ∧
    SyncAction.setGain 0 ∈
      (syncMediaElement [mutedElement] mutedElement 0 false true true
        freshCache handleIdle).2.2 ∧
    SyncAction.setNativeVolume 1 ∈
      (syncMediaElement [mutedElement] mutedElement 0 false false false
        freshCache handleIdle).2.2 := by
  refine ⟨?_, ?_, ?_, ?_, ?_⟩ <;>
    norm_num [syncMediaElement, timeSyncStep, playPauseStep, audioGraphStep,
      updateNodesStep, fallbackStep, effectiveVolumeGraph, effectiveVolumeFallback,
      specEffectiveVolume, duckFactor, activeDuckingSource, duckingQualifies, jsOr,
      mutedElement, baseElement, baseProps, freshCache, handleIdle]

/-- A 100 x 100 pixel container. -/
def rectC1 : Rect := { width := 100, height := 100 }

/-- A gesture-start geometry snapshot at rotation 0. -/
def stC1 : InitialElementState := { x := 10, y := 10, w := 20, h := 20, r := 0 }

/-- C1 counterexample: at rotation 0 (cosine 1, sine 0), dragging the
west handle by 2 px in a 100 px container (local delta 2%) moves the
east edge: x becomes 9, width becomes 18, so x + width drops from 30 to
27. -/
theorem resizeWestAnchor_cex :
    (resizeUpdate 1 0 rectC1 stC1 false true false false 2 0).1
        + (resizeUpdate 1 0 rectC1 stC1 false true false false 2 0).2.2.1
      ≠ stC1.x + stC1.w ∧
    resizeUpdate 1 0 rectC1 stC1 false true false false 2 0 = (9, 10, 18, 20) := by
  constructor <;>
    norm_num [resizeUpdate, applyXChange, applyYChange, rectC1, stC1, Prod.ext_iff]

/-- C1 (amended): at rotation 0, a west-handle resize with local delta
`d` (percent) writes x := x - d/2 and width := width - d (clamped to at
least 1), so the quantity x - width/2 is left unchanged while the east
edge x + width moves by -(3/2) d; the east edge is stationary only for
d = 0. -/
theorem resizeWestAnchor (rect : Rect) (st : InitialElementState)
    (deltaX deltaY : ℚ) (hw : 0 < rect.width)
    (hclamp : 1 ≤ st.w - deltaX / rect.width * 100) :
    resizeUpdate 1 0 rect st false true false false deltaX deltaY
      = (st.x - deltaX / rect.width * 100 / 2, st.y,
         st.w - deltaX / rect.width * 100, max 1 st.h) ∧
    (st.x - deltaX / rect.width * 100 / 2) - (st.w - deltaX / rect.width * 100) / 2
      = st.x - st.w / 2 ∧
    (st.x - deltaX / rect.width * 100 / 2) + (st.w - deltaX / rect.width * 100)
      = st.x + st.w - 3 / 2 * (deltaX / rect.width * 100) := by
  have hne : rect.width ≠ 0 := ne_of_gt hw
  refine ⟨?_, by ring, by ring⟩
  unfold resizeUpdate applyXChange
  simp only [if_neg Bool.false_ne_true, if_true, if_false, Bool.false_eq_true,
    ite_false, ite_true]
  refine Prod.ext ?_ (Prod.ext ?_ (Prod.ext ?_ ?_))
  · field_simp
    ring
  · field_simp
  · dsimp only
    have harg : st.w - (deltaX * 1 + deltaY * 0) / rect.width * 100
        = st.w - deltaX / rect.width * 100 := by ring
    rw [harg, max_eq_right hclamp]
  · rfl

/-- C1 witness: the amended statement evaluated at the concrete
west-handle drag of the counterexample. -/
theorem resizeWestAnchor_witness :
    resizeUpdate 1 0 rectC1 stC1 false true false false 2 0
      = (stC1.x - 2 / rectC1.width * 100 / 2, stC1.y,
         stC1.w - 2 / rectC1.width * 100, max 1 stC1.h) ∧
    (stC1.x - 2 / rectC1.width * 100 / 2) - (stC1.w - 2 / rectC1.width * 100) / 2
      = stC1.x - stC1.w / 2 ∧
    (stC1.x - 2 / rectC1.width * 100 / 2) + (stC1.w - 2 / rectC1.width * 100)
      = stC1.x + stC1.w - 3 / 2 * (2 / rectC1.width * 100) :=
  resizeWestAnchor rectC1 stC1 2 0 (by norm_num [rectC1])
    (by norm_num [rectC1, stC1])

/-- Recognizes a gain write. -/
def isGainAct : SyncAction → Bool
  | SyncAction.setGain _ => true
  | _ => false

/-- The time-sync block issues exactly one seek when the drift exceeds
the 0.3 s band and none otherwise. -/
theorem timeSyncStep_count (el : EditorElement) (t : ℚ) (h : MediaHandle) :
    ((timeSyncStep el t h).2).countP isSeekAct
      = if |h.currentTime - ((t - el.startTime) + el.mediaOffset)| > 3/10 then 1
        else 0 := by
  unfold timeSyncStep
  dsimp only
  by_cases hc : |h.currentTime - ((t - el.startTime) + el.mediaOffset)| > 3/10
  · rw [if_pos hc, if_pos hc]
    simp [isSeekAct]
  · rw [if_neg hc, if_neg hc]
    simp

/-- The time-sync block's trace is empty or a single seek to the target
time. -/
theorem timeSyncStep_acts (el : EditorElement) (t : ℚ) (h : MediaHandle) :
    (timeSyncStep el t h).2 = [] ∨
    (timeSyncStep el t h).2 = [SyncAction.seek ((t - el.startTime) + el.mediaOffset)] := by
  unfold timeSyncStep
  dsimp only
  split <;> simp

/-- The play/pause block's trace is empty, a single play, or a single
pause. -/
theorem playPauseStep_acts (b : Bool) (h : MediaHandle) :
    (playPauseStep b h).2 = [] ∨ (playPauseStep b h).2 = [SyncAction.play] ∨
    (playPauseStep b h).2 = [SyncAction.pause] := by
  unfold playPauseStep
  split
  · simp
  · split <;> simp

/-- The play/pause block never seeks. -/
theorem playPauseStep_count_seek (b : Bool) (h : MediaHandle) :
    ((playPauseStep b h).2).countP isSeekAct = 0 := by
  rcases playPauseStep_acts b h with ha | ha | ha <;> simp [ha, isSeekAct]

/-- The node-update block never seeks. -/
theorem updateNodesStep_count_seek (elements : List EditorElement)
    (el : EditorElement) (t : ℚ) (nodes : AudioNodes) :
    ((updateNodesStep elements el t nodes).2).countP isSeekAct = 0 := by
  unfold updateNodesStep
  simp only [List.countP_append]
  (repeat' split) <;> simp [isSeekAct]

/-- The audio-graph block never seeks. -/
theorem audioGraphStep_count_seek (elements : List EditorElement)
    (el : EditorElement) (t : ℚ) (cs : Bool) (cache : RouteCache) :
    ((audioGraphStep elements el t cs cache).2).countP isSeekAct = 0 := by
  unfold audioGraphStep
  dsimp only
  (repeat' split) <;>
    simp [isSeekAct, List.countP_append, updateNodesStep_count_seek]

/-- The fallback block never seeks. -/
theorem fallbackStep_count_seek (elements : List EditorElement)
    (el : EditorElement) (t : ℚ) (h : MediaHandle) :
    ((fallbackStep elements el t h).2).countP isSeekAct = 0 := by
  simp [fallbackStep, isSeekAct]

/-- C6: for an active element, the tick issues exactly one seek when
the drift from the target time exceeds 0.3 s, and none when the drift
is at most 0.3 s. -/
theorem hysteresisSeek (elements : List EditorElement) (el : EditorElement)
    (t : ℚ) (isPlaying ctxPresent createSucceeds : Bool) (cache : RouteCache)
    (h : MediaHandle)
    (hact : el.startTime ≤ t ∧ t ≤ el.startTime + el.duration) :
    ((syncMediaElement elements el t isPlaying ctxPresent createSucceeds
        cache h).2.2).countP isSeekAct
      = if |h.currentTime - ((t - el.startTime) + el.mediaOffset)| > 3/10 then 1
        else 0 := by
  unfold syncMediaElement
  rw [if_pos hact]
  cases ctxPresent <;>
    simp [List.countP_append, timeSyncStep_count, playPauseStep_count_seek,
      audioGraphStep_count_seek, fallbackStep_count_seek, isSeekAct]

/-- A handle drifted to 0.31 s ahead of target 0. -/
def driftHandle31 : MediaHandle :=
  { currentTime := 31/100, paused := false, playbackRate := 1, volume := 1,
    muted := false }

/-- A handle drifted to exactly 0.30 s ahead of target 0. -/
def driftHandle30 : MediaHandle :=
  { currentTime := 3/10, paused := false, playbackRate := 1, volume := 1,
    muted := false }

/-- C6 witness: at drift 0.31 the tick issues exactly one seek; at
drift exactly 0.30 it issues none. -/
theorem hysteresisSeek_witness :
    (((syncMediaElement [] baseElement 0 true true true freshCache
        driftHandle31).2.2).countP isSeekAct
      = if |driftHandle31.currentTime
            - ((0 - baseElement.startTime) + baseElement.mediaOffset)| > 3/10
        then 1 else 0) ∧
    (((syncMediaElement [] baseElement 0 true true true freshCache
        driftHandle30).2.2).countP isSeekAct
      = if |driftHandle30.currentTime
            - ((0 - baseElement.startTime) + baseElement.mediaOffset)| > 3/10
        then 1 else 0) ∧
    (if |driftHandle31.currentTime
          - (((0 : ℚ) - baseElement.startTime) + baseElement.mediaOffset)| > 3/10
     then (1 : ℕ) else 0) = 1 ∧
    (if |driftHandle30.currentTime
          - (((0 : ℚ) - baseElement.startTime) + baseElement.mediaOffset)| > 3/10
     then (1 : ℕ) else 0) = 0 :=
  ⟨hysteresisSeek [] baseElement 0 true true true freshCache driftHandle31
      (by norm_num [baseElement]),
   hysteresisSeek [] baseElement 0 true true true freshCache driftHandle30
      (by norm_num [baseElement]),
   by rw [if_pos]; norm_num [driftHandle31, baseElement, abs_of_nonneg],
   by rw [if_neg]; norm_num [driftHandle30, baseElement, abs_of_nonneg]⟩

/-- C5: the playback rate is applied exactly when the element is
active (startTime <= t <= startTime + duration), and an inactive
element's handle is at most paused: the cache is untouched and the
trace is a lone pause when the handle was playing, empty otherwise. -/
theorem activeWindowCorrectness (elements : List EditorElement)
    (el : EditorElement) (t : ℚ) (isPlaying ctxPresent createSucceeds : Bool)
    (cache : RouteCache) (h : MediaHandle) :
    (SyncAction.setRate (el.props.playbackRate.getD 1) ∈
        (syncMediaElement elements el t isPlaying ctxPresent createSucceeds
          cache h).2.2
      ↔ (el.startTime ≤ t ∧ t ≤ el.startTime + el.duration)) ∧
    (¬(el.startTime ≤ t ∧ t ≤ el.startTime + el.duration) →
      syncMediaElement elements el t isPlaying ctxPresent createSucceeds cache h
        = if h.paused then (cache, h, ([] : List SyncAction))
          else (cache, { h with paused := true }, [SyncAction.pause])) := by
  by_cases hact : el.startTime ≤ t ∧ t ≤ el.startTime + el.duration
  · refine ⟨⟨fun _ => hact, fun _ => ?_⟩, fun hcon => absurd hact hcon⟩
    unfold syncMediaElement
    rw [if_pos hact]
    simp
  · have heq : syncMediaElement elements el t isPlaying ctxPresent createSucceeds
        cache h
        = if h.paused then (cache, h, ([] : List SyncAction))
          else (cache, { h with paused := true }, [SyncAction.pause]) := by
      unfold syncMediaElement
      rw [if_neg hact]
    refine ⟨⟨fun hmem => ?_, fun hact2 => absurd hact2 hact⟩, fun _ => heq⟩
    exfalso
    rw [heq] at hmem
    rcases Bool.eq_false_or_eq_true h.paused with hp | hp <;> simp [hp] at hmem

/-- C5 witness: an element whose window [0, 10] excludes t = 20, with a
playing handle, is only paused: no seek, play, or rate write occurs. -/
theorem activeWindowCorrectness_witness :
    syncMediaElement [] baseElement 20 true true true freshCache handlePlaying
      = if handlePlaying.paused then (freshCache, handlePlaying, ([] : List SyncAction))
        else (freshCache, { handlePlaying with paused := true }, [SyncAction.pause]) :=
  (activeWindowCorrectness [] baseElement 20 true true true freshCache
    handlePlaying).2 (by norm_num [baseElement])

/-- A failed construction leaves the cache unchanged and the attempt on
the trace. -/
theorem audioGraphStep_fail (elements : List EditorElement) (el : EditorElement)
    (t : ℚ) (cache : RouteCache)
    (hsrc : cache.hasSource = false) (hnodes : cache.nodes = Option.none) :
    audioGraphStep elements el t false cache
      = (cache, [SyncAction.attemptCreateSource]) := by
  unfold audioGraphStep
  rw [hsrc]
  simp [hnodes]

/-- C3 (amended): when route construction fails for a handle on an
active tick with an audio context present, the failure does not fail
the tick, but nothing is recorded: the route cache is unchanged, so the
very next tick attempts construction again; and on such ticks no volume
is written at all — neither a gain write nor a native-volume write
appears in the trace (no direct-volume fallback). -/
theorem attachFailureRetried (elements : List EditorElement) (el : EditorElement)
    (t : ℚ) (isPlaying : Bool) (cache : RouteCache) (h : MediaHandle)
    (hact : el.startTime ≤ t ∧ t ≤ el.startTime + el.duration)
    (hsrc : cache.hasSource = false) (hnodes : cache.nodes = Option.none) :
    (syncMediaElement elements el t isPlaying true false cache h).1 = cache ∧
    ((syncMediaElement elements el t isPlaying true false cache h).2.2).countP
        isAttemptAct = 1 ∧
    (∀ v, SyncAction.setGain v ∉
      (syncMediaElement elements el t isPlaying true false cache h).2.2) ∧
    (∀ v, SyncAction.setNativeVolume v ∉
      (syncMediaElement elements el t isPlaying true false cache h).2.2) ∧
    ((syncMediaElement elements el t isPlaying true false
        (syncMediaElement elements el t isPlaying true false cache h).1
        (syncMediaElement elements el t isPlaying true false cache h).2.1).2.2).countP
        isAttemptAct = 1 := by
  have key : ∀ h2 : MediaHandle,
      (syncMediaElement elements el t isPlaying true false cache h2).1 = cache ∧
      ((syncMediaElement elements el t isPlaying true false cache h2).2.2).countP
          isAttemptAct = 1 ∧
      (∀ v, SyncAction.setGain v ∉
        (syncMediaElement elements el t isPlaying true false cache h2).2.2) ∧
      (∀ v, SyncAction.setNativeVolume v ∉
        (syncMediaElement elements el t isPlaying true false cache h2).2.2) := by
    intro h2
    unfold syncMediaElement
    rw [if_pos hact]
    rw [audioGraphStep_fail elements el t cache hsrc hnodes]
    rcases timeSyncStep_acts el t h2 with h1 | h1 <;>
      rcases playPauseStep_acts isPlaying (timeSyncStep el t h2).1 with hp | hp | hp <;>
        simp [h1, hp, isAttemptAct]
  refine ⟨(key h).1, (key h).2.1, (key h).2.2.1, (key h).2.2.2, ?_⟩
  rw [(key h).1]
  exact (key (syncMediaElement elements el t isPlaying true false cache h).2.1).2.1

/-- C3 counterexample: with a handle whose route construction always
fails, two consecutive active ticks each attempt construction (the
claim says the second tick must not), and neither tick writes any
volume — the trace is just the attempt and the rate write, with no
direct-volume fallback. -/
theorem attachFailureRetried_cex :
    (syncMediaElement [] baseElement 0 false true false freshCache handleIdle).2.2
      = [SyncAction.attemptCreateSource, SyncAction.setRate 1] ∧
    (syncMediaElement [] baseElement 0 false true false
        (syncMediaElement [] baseElement 0 false true false freshCache handleIdle).1
        (syncMediaElement [] baseElement 0 false true false freshCache
          handleIdle).2.1).2.2
      = [SyncAction.attemptCreateSource, SyncAction.setRate 1] := by
  constructor <;>
    norm_num [syncMediaElement, timeSyncStep, playPauseStep, audioGraphStep,
      updateNodesStep, fallbackStep, effectiveVolumeGraph, activeDuckingSource,
      duckingQualifies, jsOr, baseElement, baseProps, freshCache, handleIdle]

/-- C3 witness: the amended statement at the concrete failing-handle
tick. -/
theorem attachFailureRetried_witness :
    (syncMediaElement [] baseElement 0 false true false freshCache handleIdle).1
        = freshCache ∧
    ((syncMediaElement [] baseElement 0 false true false freshCache
        handleIdle).2.2).countP isAttemptAct = 1 ∧
    (∀ v, SyncAction.setGain v ∉
      (syncMediaElement [] baseElement 0 false true false freshCache
        handleIdle).2.2) ∧
    (∀ v, SyncAction.setNativeVolume v ∉
      (syncMediaElement [] baseElement 0 false true false freshCache
        handleIdle).2.2) ∧
    ((syncMediaElement [] baseElement 0 false true false
        (syncMediaElement [] baseElement 0 false true false freshCache handleIdle).1
        (syncMediaElement [] baseElement 0 false true false freshCache
          handleIdle).2.1).2.2).countP isAttemptAct = 1 :=
  attachFailureRetried [] baseElement 0 false freshCache handleIdle
    (by norm_num [baseElement]) rfl rfl

/-- A short element with a long zoom-in entry and a long fade exit, so
both transition windows overlap at t = 1/2. -/
def elC7 : EditorElement :=
  { baseElement with
    id := "c7",
    duration := 1,
    transitionIn := Option.some { type := TransitionType.zoomIn, duration := 2 },
    transitionOut := Option.some { type := TransitionType.fade, duration := 2 } }

/-- A short element with a fade entry and a zoom-out exit overlapping
at t = 1/2. -/
def elC7W : EditorElement :=
  { baseElement with
    id := "c7w",
    duration := 1,
    transitionIn := Option.some { type := TransitionType.fade, duration := 2 },
    transitionOut := Option.some { type := TransitionType.zoomOut, duration := 2 } }

/-- C7 counterexample: with both windows open (elapsed 1/2 < 2 and
remaining 1/2 < 2), a zoom-in entry under a fade exit emits the IN
branch's transform (scale 5/8), while the out branch computes no
transform — so the emitted transform is not the one computed by the
transition-out branch. -/
theorem transitionOverlap_cex :
    ((1 : ℚ)/2 - elC7.startTime < 2) ∧
    ((elC7.startTime + elC7.duration) - 1/2 < 2) ∧
    (transitionResult elC7 (1/2)).2 = TransitionTransform.scale (5/8) ∧
    (applyTransitionOut elC7 (1/2) (1, TransitionTransform.none)).2
      = TransitionTransform.none ∧
    (transitionResult elC7 (1/2)).2
      ≠ (applyTransitionOut elC7 (1/2) (1, TransitionTransform.none)).2 := by
  refine ⟨?_, ?_, ?_, ?_, ?_⟩ <;>
    (norm_num [transitionResult, applyTransitionIn, applyTransitionOut,
      elC7, baseElement]
     try simp)

/-- Inside its window with a positive configured duration, the in
branch leaves the opacity at most 1 (either the progress, which is
below 1, or the untouched initial 1). -/
theorem applyTransitionIn_opacity_le (el : EditorElement) (ti : TransitionSpec)
    (t : ℚ) (hIn : el.transitionIn = Option.some ti) (hInD : 0 < ti.duration)
    (hInW : t - el.startTime < ti.duration) :
    (applyTransitionIn el t (1, TransitionTransform.none)).1 ≤ 1 := by
  have hpI : (t - el.startTime) / ti.duration ≤ 1 := ((div_lt_one hInD).mpr hInW).le
  unfold applyTransitionIn
  rw [hIn]
  dsimp only
  split
  · cases hti : ti.type <;> simp_all
  · simp

/-- C7 (amended): when both transition windows hold (with positive
configured durations), the emitted opacity is the minimum of the
opacities the in and out branches each compute alone; the emitted
transform is the out branch's whenever the out type writes a transform
(zooms and wipes), and otherwise (fade/dissolve exits) the in branch's
transform survives. -/
theorem transitionOverlap (el : EditorElement) (ti tr : TransitionSpec) (t : ℚ)
    (hIn : el.transitionIn = Option.some ti) (hInT : ti.type ≠ TransitionType.none)
    (hInW : t - el.startTime < ti.duration) (hInD : 0 < ti.duration)
    (hOut : el.transitionOut = Option.some tr) (hOutT : tr.type ≠ TransitionType.none)
    (hOutW : (el.startTime + el.duration) - t < tr.duration) (hOutD : 0 < tr.duration) :
    (transitionResult el t).1
      = min (applyTransitionIn el t (1, TransitionTransform.none)).1
            (applyTransitionOut el t (1, TransitionTransform.none)).1 ∧
    (setsTransform tr.type = true →
      (transitionResult el t).2
        = (applyTransitionOut el t (1, TransitionTransform.none)).2) ∧
    (setsTransform tr.type = false →
      (transitionResult el t).2
        = (applyTransitionIn el t (1, TransitionTransform.none)).2) := by
  have hpO : ((el.startTime + el.duration) - t) / tr.duration < 1 :=
    (div_lt_one hOutD).mpr hOutW
  have hA1 : (applyTransitionIn el t (1, TransitionTransform.none)).1 ≤ 1 :=
    applyTransitionIn_opacity_le el ti t hIn hInD hInW
  unfold transitionResult applyTransitionOut
  rw [hOut]
  dsimp only
  rw [if_pos ⟨hOutT, hOutW⟩]
  cases htr : tr.type <;>
    simp_all [setsTransform, min_eq_right hpO.le, min_eq_left hA1, min_self]

/-- C7 witness: the amended statement at a fade entry under a zoom-out
exit with both windows open at t = 1/2. -/
theorem transitionOverlap_witness :
    (transitionResult elC7W (1/2)).1
      = min (applyTransitionIn elC7W (1/2) (1, TransitionTransform.none)).1
            (applyTransitionOut elC7W (1/2) (1, TransitionTransform.none)).1 ∧
    (setsTransform ({ type := TransitionType.zoomOut, duration := 2 } :
        TransitionSpec).type = true →
      (transitionResult elC7W (1/2)).2
        = (applyTransitionOut elC7W (1/2) (1, TransitionTransform.none)).2) ∧
    (setsTransform ({ type := TransitionType.zoomOut, duration := 2 } :
        TransitionSpec).type = false →
      (transitionResult elC7W (1/2)).2
        = (applyTransitionIn elC7W (1/2) (1, TransitionTransform.none)).2) :=
  transitionOverlap elC7W { type := TransitionType.fade, duration := 2 }
    { type := TransitionType.zoomOut, duration := 2 } (1/2)
    rfl (by simp) (by norm_num [elC7W, baseElement]) (by norm_num)
    rfl (by simp) (by norm_num [elC7W, baseElement]) (by norm_num)

end MotionLabs
